import Mathlib

/-!
Verification of the crm01 analytics server and client against its
natural-language specification.  The definitions below are shallow
embeddings of the TypeScript source:

* metric derivation (`calculateMetrics`, server `src/index.ts` lines 53 to 77),
* the summary aggregation endpoint (`GET /api/summary`, lines 374 to 425),
* the diagnosis rule engine of the auto-analysis page
  (`client/src/pages/AutoAnalysis.tsx` lines 85 to 155),
* the comparison-period computations (server `GET /api/funnel-metrics`
  lines 184 to 198 and the client fetch, AutoAnalysis lines 59 to 61),
* the bulk import subsystem (`POST /api/import/preview`, `/confirm`,
  `/undo`, lines 504 to 795) over a relational-store model whose unique
  index on the record date comes from the repository migration file,
* the upsert endpoint `POST /api/records` (lines 234 to 296).

Numbers are modelled as rationals (the source uses JS numbers and the
claims are about exact arithmetic on them); timestamps are integers in
milliseconds and calendar dates either day numbers or year/month/day
triples, as each code path requires.
-/

namespace Crm01

/-- A raw daily record as stored by the server: the nine numeric columns of
`DailyRecord` plus its date (modelled abstractly as an integer key, unused
by the formulas). Mirrors the argument of `calculateMetrics` in
server `src/index.ts`. -/
structure RawRecord where
  date : Int
  totalSale : Rat
  totalSaleGmv : Rat
  gmvSaleLive : Rat
  gmvAdsSpend : Rat
  gmvLiveAdsSpend : Rat
  ttamSpendAds : Rat
  ttamImpressions : Rat
  visitor : Rat
  customers : Rat
deriving DecidableEq

/-- The record returned by `calculateMetrics`: the raw fields spread
unchanged plus the seven derived fields. -/
structure EnrichedRecord where
  date : Int
  totalSale : Rat
  totalSaleGmv : Rat
  gmvSaleLive : Rat
  gmvAdsSpend : Rat
  gmvLiveAdsSpend : Rat
  ttamSpendAds : Rat
  ttamImpressions : Rat
  visitor : Rat
  customers : Rat
  gmvSaleProduct : Rat
  directShopSale : Rat
  gmvProductAdsSpend : Rat
  totalAdsSpend : Rat
  cpm : Rat
  roiTotal : Rat
  roiGmv : Rat
deriving DecidableEq

/-- `calculateMetrics` from server `src/index.ts` lines 53 to 77: derives
the sale splits, spend totals, CPM and ROI from a raw record, guarding
each division by a positivity test on its denominator. -/
def calculateMetrics (record : RawRecord) : EnrichedRecord :=
  let gmvSaleProduct := record.totalSaleGmv - record.gmvSaleLive
  let directShopSale := record.totalSale - record.totalSaleGmv
  let gmvProductAdsSpend := record.gmvAdsSpend - record.gmvLiveAdsSpend
  let totalAdsSpend := record.gmvAdsSpend + record.ttamSpendAds
  let cpm := if record.ttamImpressions > 0 then
    record.ttamSpendAds / record.ttamImpressions * 1000 else 0
  let roiTotal := if totalAdsSpend > 0 then record.totalSale / totalAdsSpend else 0
  let roiGmv := if totalAdsSpend > 0 then record.totalSaleGmv / totalAdsSpend else 0
  { date := record.date
    totalSale := record.totalSale
    totalSaleGmv := record.totalSaleGmv
    gmvSaleLive := record.gmvSaleLive
    gmvAdsSpend := record.gmvAdsSpend
    gmvLiveAdsSpend := record.gmvLiveAdsSpend
    ttamSpendAds := record.ttamSpendAds
    ttamImpressions := record.ttamImpressions
    visitor := record.visitor
    customers := record.customers
    gmvSaleProduct := gmvSaleProduct
    directShopSale := directShopSale
    gmvProductAdsSpend := gmvProductAdsSpend
    totalAdsSpend := totalAdsSpend
    cpm := cpm
    roiTotal := roiTotal
    roiGmv := roiGmv }

/-- The five running totals accumulated by the `records.forEach` loop of
`GET /api/summary` (server `src/index.ts` lines 397 to 410). -/
structure SumAcc where
  totalSale : Rat
  totalAdsSpend : Rat
  totalSaleGmv : Rat
  totalLiveGmv : Rat
  totalDirectShop : Rat
deriving DecidableEq

/-- The single pass of the `forEach` loop of `GET /api/summary`: each
record is enriched by `calculateMetrics` and its metrics are added to the
five accumulators. -/
def sumLoop : List RawRecord → SumAcc → SumAcc
  | [], a => a
  | r :: rs, a =>
    let m := calculateMetrics r
    sumLoop rs
      { totalSale := a.totalSale + m.totalSale
        totalAdsSpend := a.totalAdsSpend + m.totalAdsSpend
        totalSaleGmv := a.totalSaleGmv + m.totalSaleGmv
        totalLiveGmv := a.totalLiveGmv + m.gmvSaleLive
        totalDirectShop := a.totalDirectShop + m.directShopSale }

/-- The JSON body returned by `GET /api/summary` (server `src/index.ts`
lines 415 to 424). -/
structure SummaryResponse where
  totalSale : Rat
  totalAdsSpend : Rat
  roiTotal : Rat
  roiGmv : Rat
  totalSaleGmv : Rat
  totalLiveGmv : Rat
  totalDirectShop : Rat
  records : List EnrichedRecord
deriving DecidableEq

/-- `GET /api/summary` on the records of the requested range (server
`src/index.ts` lines 396 to 424): accumulates the five totals with
`sumLoop` starting from zero, then derives the two aggregate ROI ratios
guarded by positivity of the summed spend. -/
def apiSummary (records : List RawRecord) : SummaryResponse :=
  let a := sumLoop records { totalSale := 0, totalAdsSpend := 0, totalSaleGmv := 0,
                             totalLiveGmv := 0, totalDirectShop := 0 }
  let roiTotal := if a.totalAdsSpend > 0 then a.totalSale / a.totalAdsSpend else 0
  let roiGmv := if a.totalAdsSpend > 0 then a.totalSaleGmv / a.totalAdsSpend else 0
  { totalSale := a.totalSale
    totalAdsSpend := a.totalAdsSpend
    roiTotal := roiTotal
    roiGmv := roiGmv
    totalSaleGmv := a.totalSaleGmv
    totalLiveGmv := a.totalLiveGmv
    totalDirectShop := a.totalDirectShop
    records := records.map calculateMetrics }

/-- The accumulating loop computes the five sums: closed form of
`sumLoop`. -/
lemma sumLoop_spec (l : List RawRecord) (a : SumAcc) :
    sumLoop l a =
      { totalSale := a.totalSale + (l.map fun r => (calculateMetrics r).totalSale).sum
        totalAdsSpend := a.totalAdsSpend + (l.map fun r => (calculateMetrics r).totalAdsSpend).sum
        totalSaleGmv := a.totalSaleGmv + (l.map fun r => (calculateMetrics r).totalSaleGmv).sum
        totalLiveGmv := a.totalLiveGmv + (l.map fun r => (calculateMetrics r).gmvSaleLive).sum
        totalDirectShop := a.totalDirectShop +
          (l.map fun r => (calculateMetrics r).directShopSale).sum } := by
  induction l generalizing a with
  | nil => simp [sumLoop]
  | cons r rs ih =>
    rw [sumLoop, ih]
    simp only [List.map_cons, List.sum_cons, SumAcc.mk.injEq]
    refine ⟨?_, ?_, ?_, ?_, ?_⟩ <;> ring

/-- C3: `calculateMetrics` is a pure function of its input record: it
returns the raw fields unchanged, extended with the derived sale splits,
spend totals, CPM (ttamSpendAds over ttamImpressions times 1000 when the
impressions are positive and 0 otherwise) and the two ROI ratios
(numerator over total ads spend when the total ads spend is positive and
0 otherwise). -/
theorem calculateMetrics_formulas (r : RawRecord) :
    ((calculateMetrics r).date = r.date ∧
     (calculateMetrics r).totalSale = r.totalSale ∧
     (calculateMetrics r).totalSaleGmv = r.totalSaleGmv ∧
     (calculateMetrics r).gmvSaleLive = r.gmvSaleLive ∧
     (calculateMetrics r).gmvAdsSpend = r.gmvAdsSpend ∧
     (calculateMetrics r).gmvLiveAdsSpend = r.gmvLiveAdsSpend ∧
     (calculateMetrics r).ttamSpendAds = r.ttamSpendAds ∧
     (calculateMetrics r).ttamImpressions = r.ttamImpressions ∧
     (calculateMetrics r).visitor = r.visitor ∧
     (calculateMetrics r).customers = r.customers) ∧
    (calculateMetrics r).gmvSaleProduct = r.totalSaleGmv - r.gmvSaleLive ∧
    (calculateMetrics r).directShopSale = r.totalSale - r.totalSaleGmv ∧
    (calculateMetrics r).gmvProductAdsSpend = r.gmvAdsSpend - r.gmvLiveAdsSpend ∧
    (calculateMetrics r).totalAdsSpend = r.gmvAdsSpend + r.ttamSpendAds ∧
    (r.ttamImpressions > 0 →
      (calculateMetrics r).cpm = r.ttamSpendAds / r.ttamImpressions * 1000) ∧
    (¬ r.ttamImpressions > 0 → (calculateMetrics r).cpm = 0) ∧
    (r.gmvAdsSpend + r.ttamSpendAds > 0 →
      (calculateMetrics r).roiTotal = r.totalSale / (r.gmvAdsSpend + r.ttamSpendAds) ∧
      (calculateMetrics r).roiGmv = r.totalSaleGmv / (r.gmvAdsSpend + r.ttamSpendAds)) ∧
    (¬ r.gmvAdsSpend + r.ttamSpendAds > 0 →
      (calculateMetrics r).roiTotal = 0 ∧ (calculateMetrics r).roiGmv = 0) := by
  refine ⟨⟨rfl, rfl, rfl, rfl, rfl, rfl, rfl, rfl, rfl, rfl⟩, rfl, rfl, rfl, rfl,
    ?_, ?_, ?_, ?_⟩ <;> intro h <;> simp [calculateMetrics, h]

/-- C3 witness: the formulas evaluated at a concrete record with positive
impressions and spend. -/
theorem calculateMetrics_formulas_witness :
    (({ date := 0, totalSale := 100, totalSaleGmv := 80, gmvSaleLive := 50,
        gmvAdsSpend := 10, gmvLiveAdsSpend := 6, ttamSpendAds := 5,
        ttamImpressions := 50000, visitor := 1000, customers := 50 : RawRecord}).ttamImpressions
      > 0) ∧
    (calculateMetrics
      { date := 0, totalSale := 100, totalSaleGmv := 80, gmvSaleLive := 50,
        gmvAdsSpend := 10, gmvLiveAdsSpend := 6, ttamSpendAds := 5,
        ttamImpressions := 50000, visitor := 1000, customers := 50 }).cpm =
      ({ date := 0, totalSale := 100, totalSaleGmv := 80, gmvSaleLive := 50,
         gmvAdsSpend := 10, gmvLiveAdsSpend := 6, ttamSpendAds := 5,
         ttamImpressions := 50000, visitor := 1000, customers := 50 : RawRecord}).ttamSpendAds /
      ({ date := 0, totalSale := 100, totalSaleGmv := 80, gmvSaleLive := 50,
         gmvAdsSpend := 10, gmvLiveAdsSpend := 6, ttamSpendAds := 5,
         ttamImpressions := 50000, visitor := 1000, customers := 50 : RawRecord}).ttamImpressions
      * 1000 :=
  ⟨by decide,
   (calculateMetrics_formulas _).2.2.2.2.2.1 (by decide)⟩

/-- C7: the summary endpoint returns the five totals as sums of the
per-record derived metrics, and the two aggregate ROI values as ratios of
sums (summed sale over summed spend when the summed spend is positive and
0 otherwise), not averages of daily ratios. -/
theorem apiSummary_ratio_of_sums (records : List RawRecord) :
    (apiSummary records).totalSale = (records.map fun r => (calculateMetrics r).totalSale).sum ∧
    (apiSummary records).totalAdsSpend =
      (records.map fun r => (calculateMetrics r).totalAdsSpend).sum ∧
    (apiSummary records).totalSaleGmv =
      (records.map fun r => (calculateMetrics r).totalSaleGmv).sum ∧
    (apiSummary records).totalLiveGmv =
      (records.map fun r => (calculateMetrics r).gmvSaleLive).sum ∧
    (apiSummary records).totalDirectShop =
      (records.map fun r => (calculateMetrics r).directShopSale).sum ∧
    (apiSummary records).roiTotal =
      (if (records.map fun r => (calculateMetrics r).totalAdsSpend).sum > 0 then
        (records.map fun r => (calculateMetrics r).totalSale).sum /
          (records.map fun r => (calculateMetrics r).totalAdsSpend).sum
       else 0) ∧
    (apiSummary records).roiGmv =
      (if (records.map fun r => (calculateMetrics r).totalAdsSpend).sum > 0 then
        (records.map fun r => (calculateMetrics r).totalSaleGmv).sum /
          (records.map fun r => (calculateMetrics r).totalAdsSpend).sum
       else 0) := by
  simp [apiSummary, sumLoop_spec]

/-- C9: every derived ratio is total: in `calculateMetrics` the CPM is 0
whenever the impressions are not positive and the two ROI values are 0
whenever the total ads spend is not positive, and in the summary endpoint
the two aggregate ROI values are 0 whenever the summed spend is not
positive. -/
theorem derived_ratios_total (r : RawRecord) (rs : List RawRecord) :
    (¬ r.ttamImpressions > 0 → (calculateMetrics r).cpm = 0) ∧
    (¬ r.gmvAdsSpend + r.ttamSpendAds > 0 →
      (calculateMetrics r).roiTotal = 0 ∧ (calculateMetrics r).roiGmv = 0) ∧
    (¬ (apiSummary rs).totalAdsSpend > 0 →
      (apiSummary rs).roiTotal = 0 ∧ (apiSummary rs).roiGmv = 0) := by
  refine ⟨?_, ?_, ?_⟩ <;> intro h
  · simp [calculateMetrics, h]
  · simp [calculateMetrics, h]
  · constructor <;>
    · simp only [apiSummary] at h ⊢
      simp [if_neg h]

/-- C9 witness: the totality guards evaluated at the all-zero record and
the empty record set. -/
theorem derived_ratios_total_witness :
    (¬ ({ date := 0, totalSale := 0, totalSaleGmv := 0, gmvSaleLive := 0,
          gmvAdsSpend := 0, gmvLiveAdsSpend := 0, ttamSpendAds := 0,
          ttamImpressions := 0, visitor := 0, customers := 0 : RawRecord}).ttamImpressions > 0) ∧
    (calculateMetrics
      { date := 0, totalSale := 0, totalSaleGmv := 0, gmvSaleLive := 0,
        gmvAdsSpend := 0, gmvLiveAdsSpend := 0, ttamSpendAds := 0,
        ttamImpressions := 0, visitor := 0, customers := 0 }).cpm = 0 ∧
    (apiSummary []).roiTotal = 0 ∧ (apiSummary []).roiGmv = 0 := by
  have h := derived_ratios_total
    { date := 0, totalSale := 0, totalSaleGmv := 0, gmvSaleLive := 0,
      gmvAdsSpend := 0, gmvLiveAdsSpend := 0, ttamSpendAds := 0,
      ttamImpressions := 0, visitor := 0, customers := 0 } []
  have h1 : ¬ ((0 : Rat) > 0) := by decide
  have h3 := h.2.2 (by decide)
  exact ⟨by decide, h.1 (by decide), h3.1, h3.2⟩

/-- `getChange` from `client/src/pages/AutoAnalysis.tsx` lines 85 to 88:
percentage change of `curr` against `prev`, with the zero-previous case
mapped to 100 (when the current value is positive) or 0. -/
def getChange (curr prev : Rat) : Rat :=
  if prev = 0 then (if curr > 0 then 100 else 0) else (curr - prev) / prev * 100

/-- The funnel quantities computed by `calcFunnel` in the report memo of
AutoAnalysis (lines 101 to 115). -/
structure Funnel where
  visitor : Rat
  customers : Rat
  cr : Rat
  aov : Rat
  cac : Rat
  rpv : Rat
deriving DecidableEq

/-- `calcFunnel` from AutoAnalysis lines 101 to 115.  The summary response
carries no top-level visitor or customers field, so the fallback branch of
the JS `data.visitor || (...)` expression always runs: visitors and
customers are summed over the response records. -/
def calcFunnel (data : SummaryResponse) : Funnel :=
  let vis := (data.records.map fun r => r.visitor).sum
  let cust := (data.records.map fun r => r.customers).sum
  let sales := data.totalSale
  let spend := data.totalAdsSpend
  { visitor := vis
    customers := cust
    cr := if vis > 0 then cust / vis * 100 else 0
    aov := if cust > 0 then sales / cust else 0
    cac := if cust > 0 then spend / cust else 0
    rpv := if vis > 0 then sales / vis else 0 }

/-- The seven canned analysis/recommendation texts the sale section of the
diagnosis engine can select (AutoAnalysis lines 128 to 155), named by
their content. -/
inductive SaleDiag where
  | trafficIssue
  | conversionIssue
  | basketValue
  | adsEfficiency
  | genericDecline
  | scaling
  | buyingSales
deriving DecidableEq

/-- The sale branch of the diagnosis engine (AutoAnalysis lines 91 to
155): threshold tests on the percentage changes of sales, visitors,
conversion rate, AOV and ROI select one canned text in a fixed priority
order. -/
def saleDiagnosis (c p : SummaryResponse) : SaleDiag :=
  let saleChange := getChange c.totalSale p.totalSale
  let roiChange := getChange c.roiTotal p.roiTotal
  let cF := calcFunnel c
  let pF := calcFunnel p
  let crChange := getChange cF.cr pF.cr
  let aovChange := getChange cF.aov pF.aov
  let visChange := getChange cF.visitor pF.visitor
  if saleChange < 0 then
    if visChange < -10 then SaleDiag.trafficIssue
    else if crChange < -10 then SaleDiag.conversionIssue
    else if aovChange < -10 then SaleDiag.basketValue
    else if roiChange < 0 then SaleDiag.adsEfficiency
    else SaleDiag.genericDecline
  else
    if roiChange > 0 then SaleDiag.scaling
    else SaleDiag.buyingSales

/-- C6: the sale diagnosis selects exactly one canned text by fixed
thresholds in a fixed priority order: on a negative sales change, visitor
change below minus 10 percent selects the traffic-issue text, otherwise
conversion-rate change below minus 10 percent the conversion-issue text,
otherwise AOV change below minus 10 percent the basket-value text,
otherwise negative ROI change the ads-efficiency text, otherwise the
generic-decline text; on a non-negative sales change, positive ROI change
selects the scaling text and otherwise the buying-sales text. -/
theorem saleDiagnosis_priority (c p : SummaryResponse) :
    (getChange c.totalSale p.totalSale < 0 ∧
       getChange (calcFunnel c).visitor (calcFunnel p).visitor < -10 →
      saleDiagnosis c p = SaleDiag.trafficIssue) ∧
    (getChange c.totalSale p.totalSale < 0 ∧
       ¬ getChange (calcFunnel c).visitor (calcFunnel p).visitor < -10 ∧
       getChange (calcFunnel c).cr (calcFunnel p).cr < -10 →
      saleDiagnosis c p = SaleDiag.conversionIssue) ∧
    (getChange c.totalSale p.totalSale < 0 ∧
       ¬ getChange (calcFunnel c).visitor (calcFunnel p).visitor < -10 ∧
       ¬ getChange (calcFunnel c).cr (calcFunnel p).cr < -10 ∧
       getChange (calcFunnel c).aov (calcFunnel p).aov < -10 →
      saleDiagnosis c p = SaleDiag.basketValue) ∧
    (getChange c.totalSale p.totalSale < 0 ∧
       ¬ getChange (calcFunnel c).visitor (calcFunnel p).visitor < -10 ∧
       ¬ getChange (calcFunnel c).cr (calcFunnel p).cr < -10 ∧
       ¬ getChange (calcFunnel c).aov (calcFunnel p).aov < -10 ∧
       getChange c.roiTotal p.roiTotal < 0 →
      saleDiagnosis c p = SaleDiag.adsEfficiency) ∧
    (getChange c.totalSale p.totalSale < 0 ∧
       ¬ getChange (calcFunnel c).visitor (calcFunnel p).visitor < -10 ∧
       ¬ getChange (calcFunnel c).cr (calcFunnel p).cr < -10 ∧
       ¬ getChange (calcFunnel c).aov (calcFunnel p).aov < -10 ∧
       ¬ getChange c.roiTotal p.roiTotal < 0 →
      saleDiagnosis c p = SaleDiag.genericDecline) ∧
    (¬ getChange c.totalSale p.totalSale < 0 ∧
       getChange c.roiTotal p.roiTotal > 0 →
      saleDiagnosis c p = SaleDiag.scaling) ∧
    (¬ getChange c.totalSale p.totalSale < 0 ∧
       ¬ getChange c.roiTotal p.roiTotal > 0 →
      saleDiagnosis c p = SaleDiag.buyingSales) := by
  simp only [saleDiagnosis]
  split_ifs <;> simp_all

/-- C6 witness: a rising-sales, rising-ROI pair of summaries selects the
scaling text. -/
theorem saleDiagnosis_priority_witness :
    saleDiagnosis
      { totalSale := 1, totalAdsSpend := 0, roiTotal := 1, roiGmv := 0,
        totalSaleGmv := 0, totalLiveGmv := 0, totalDirectShop := 0, records := [] }
      { totalSale := 0, totalAdsSpend := 0, roiTotal := 0, roiGmv := 0,
        totalSaleGmv := 0, totalLiveGmv := 0, totalDirectShop := 0, records := [] }
      = SaleDiag.scaling :=
  (saleDiagnosis_priority _ _).2.2.2.2.2.1 ⟨by decide, by decide⟩

/-- Calendar day number of an epoch timestamp in milliseconds, as produced
by the `toStr` date formatting of the client and by zeroing the time of
day on the server: floor division by the number of milliseconds in a
day. -/
def dayOfMs (t : Int) : Int := t / 86400000

/-- The previous-period computation of `GET /api/funnel-metrics` (server
`src/index.ts` lines 184 to 198) on day numbers: the server zeroes the
time of day of both range ends before taking the difference, so the
start and end are whole days here. -/
def funnelPrevPeriod (s e : Int) : Int × Int :=
  let rangeDays := e - s + 1
  let pEnd := s - 1
  let pStart := pEnd - rangeDays + 1
  (pStart, pEnd)

/-- The comparison-period computation of the auto-analysis page
(AutoAnalysis lines 59 to 61) on millisecond timestamps: the comparison
end is one full day before the range start and the comparison start is
the comparison end minus the millisecond duration of the range. -/
def clientCompPeriod (startMs endMs : Int) : Int × Int :=
  let duration := endMs - startMs
  let compEnd := startMs - 86400000
  let compStart := compEnd - duration
  (compStart, compEnd)

/-- C4 counterexample: for the 7-day range from day 7 to day 13 (start at
midnight, end at 23:59:59.999 as the page and its presets produce), the
comparison period of the auto-analysis page spans 8 calendar days, not
7. -/
theorem clientCompPeriod_span_cex :
    dayOfMs (clientCompPeriod 604800000 1209599999).2
        - dayOfMs (clientCompPeriod 604800000 1209599999).1 + 1
      ≠ dayOfMs 1209599999 - dayOfMs 604800000 + 1 := by decide

/-- C4 amended: the server funnel-metrics previous period is exactly
the rangeDays-long window ending the day before the start; the
auto-analysis page comparison period also ends the day before the start
but spans rangeDays plus one calendar days (its start lands one day too
early) whenever the range carries the start-of-day/end-of-day times the
page and its presets produce. -/
theorem comparisonPeriods (s e S E : Int) :
    funnelPrevPeriod s e = (s - (e - s + 1), s - 1) ∧
    (funnelPrevPeriod s e).2 - (funnelPrevPeriod s e).1 + 1 = e - s + 1 ∧
    dayOfMs (clientCompPeriod (86400000 * S) (86400000 * E + 86399999)).2 = S - 1 ∧
    dayOfMs (clientCompPeriod (86400000 * S) (86400000 * E + 86399999)).1
      = S - (E - S + 1) - 1 := by
  have hD : (86400000 : Int) ≠ 0 := by norm_num
  refine ⟨?_, ?_, ?_, ?_⟩
  · simp only [funnelPrevPeriod, Prod.mk.injEq, and_true]
    omega
  · simp only [funnelPrevPeriod]
    omega
  · have h2 : (clientCompPeriod (86400000 * S) (86400000 * E + 86399999)).2
        = 86400000 * (S - 1) := by
      simp only [clientCompPeriod]
      omega
    rw [h2, dayOfMs, Int.mul_ediv_cancel_left _ hD]
  · have h1 : (clientCompPeriod (86400000 * S) (86400000 * E + 86399999)).1
        = 1 + 86400000 * (2 * S - E - 2) := by
      simp only [clientCompPeriod]
      omega
    rw [h1, dayOfMs, Int.add_mul_ediv_left _ _ hD]
    have h0 : (1 : Int) / 86400000 = 0 := by decide
    rw [h0]
    omega

/-- A calendar date: `parseExcelDate` (server `src/index.ts` lines 432 to
459) always builds a midnight-UTC `Date` from a year, month and day, so
the triple determines it. -/
structure Ymd where
  year : Int
  month : Int
  day : Int
deriving DecidableEq

/-- One data row of the uploaded spreadsheet after cell parsing: the
result of `parseExcelDate` on the first cell and the numeric cells as
parsed by `parseFloat` or `parseInt` with fallback 0.  The parsing code is
identical in preview (lines 533, 547 to 555) and confirm (lines 653, 657
to 665), including the column swap putting the live ads spend in column 4
and the ads spend in column 5; `parseInt` cells are integers. -/
structure ImportRow where
  dateCell : Option Ymd
  totalSale : Rat
  totalSaleGmv : Rat
  gmvSaleLive : Rat
  gmvLiveAdsSpend : Rat
  gmvAdsSpend : Rat
  ttamSpendAds : Rat
  ttamImpressions : Int
  visitor : Int
  customers : Int
deriving DecidableEq

/-- The per-row checks of `POST /api/import/preview` (lines 529 to 587),
in their early-return order: date parses, date lies in the target month,
the three monetary inequalities, and customers not exceeding visitors. -/
def previewRowValid (targetYear targetMonth : Int) (r : ImportRow) : Bool :=
  match r.dateCell with
  | none => false
  | some d =>
    if d.month ≠ targetMonth ∨ d.year ≠ targetYear then false
    else if r.totalSale < r.totalSaleGmv then false
    else if r.totalSaleGmv < r.gmvSaleLive then false
    else if r.gmvAdsSpend < r.gmvLiveAdsSpend then false
    else if r.customers > r.visitor then false
    else true

/-- The per-row checks of `POST /api/import/confirm` (lines 652 to 681):
date parses, date lies in the target month, and the single conjunction of
the three monetary inequalities of line 667.  There is no check on
customers against visitors here. -/
def confirmRowValid (targetYear targetMonth : Int) (r : ImportRow) : Bool :=
  match r.dateCell with
  | none => false
  | some d =>
    if d.month ≠ targetMonth ∨ d.year ≠ targetYear then false
    else if r.totalSale ≥ r.totalSaleGmv ∧ r.totalSaleGmv ≥ r.gmvSaleLive ∧
            r.gmvAdsSpend ≥ r.gmvLiveAdsSpend then true
    else false

/-- The rows accumulated into `validRows` by the preview loop.  The later
duplicate-date pass (lines 590 to 598) appends error entries but does not
remove anything from `validRows`, so this filter is the final value. -/
def previewValidRows (y m : Int) (rows : List ImportRow) : List ImportRow :=
  rows.filter (previewRowValid y m)

/-- The rows accumulated into `validRows` by the confirm loop; these are
exactly the rows the insert loop of lines 698 to 714 tries to insert. -/
def confirmValidRows (y m : Int) (rows : List ImportRow) : List ImportRow :=
  rows.filter (confirmRowValid y m)

/-- The column values handed to `prisma.dailyRecord.create`. -/
structure RecordData where
  date : Ymd
  totalSale : Rat
  totalSaleGmv : Rat
  gmvSaleLive : Rat
  gmvAdsSpend : Rat
  gmvLiveAdsSpend : Rat
  ttamSpendAds : Rat
  ttamImpressions : Int
  visitor : Int
  customers : Int
deriving DecidableEq

/-- The record object a valid row is turned into (lines 668 to 679).  The
date cell is present on every valid row; the default is never used. -/
def rowToData (r : ImportRow) : RecordData :=
  { date := r.dateCell.getD { year := 0, month := 0, day := 0 }
    totalSale := r.totalSale
    totalSaleGmv := r.totalSaleGmv
    gmvSaleLive := r.gmvSaleLive
    gmvAdsSpend := r.gmvAdsSpend
    gmvLiveAdsSpend := r.gmvLiveAdsSpend
    ttamSpendAds := r.ttamSpendAds
    ttamImpressions := r.ttamImpressions
    visitor := r.visitor
    customers := r.customers }

/-- A stored `DailyRecord` row of the import subsystem, with its
autoincrement id. -/
structure DbRecord where
  id : Nat
  date : Ymd
  totalSale : Rat
  totalSaleGmv : Rat
  gmvSaleLive : Rat
  gmvAdsSpend : Rat
  gmvLiveAdsSpend : Rat
  ttamSpendAds : Rat
  ttamImpressions : Int
  visitor : Int
  customers : Int
deriving DecidableEq

/-- The `DailyRecord` table: stored rows in insertion order plus the next
autoincrement id. -/
structure Db where
  rows : List DbRecord
  nextId : Nat
deriving DecidableEq

/-- A fresh record built from column data and an id. -/
def dataToRecord (id : Nat) (r : RecordData) : DbRecord :=
  { id := id
    date := r.date
    totalSale := r.totalSale
    totalSaleGmv := r.totalSaleGmv
    gmvSaleLive := r.gmvSaleLive
    gmvAdsSpend := r.gmvAdsSpend
    gmvLiveAdsSpend := r.gmvLiveAdsSpend
    ttamSpendAds := r.ttamSpendAds
    ttamImpressions := r.ttamImpressions
    visitor := r.visitor
    customers := r.customers }

/-- `prisma.dailyRecord.create`: the repository migration declares a
unique index on the record date (`DailyRecord_date_key`), so inserting a
record whose date is already present throws; otherwise the record is
appended with the next autoincrement id. -/
def dbCreate (db : Db) (r : RecordData) : Except Unit (Db × Nat) :=
  if db.rows.any fun s => s.date == r.date then Except.error ()
  else Except.ok
    ({ rows := db.rows ++ [dataToRecord db.nextId r], nextId := db.nextId + 1 }, db.nextId)

/-- Membership of a date in the target month, as both import endpoints
test it (`date.getMonth() + 1 !== targetMonth || date.getFullYear() !==
targetYear`, and the gte/lt month window of the delete and count
queries). -/
def inMonth (y m : Int) (d : Ymd) : Bool := d.year == y && d.month == m

/-- `prisma.dailyRecord.deleteMany` over the month window (lines 692 to
694). -/
def deleteMonth (db : Db) (y m : Int) : Db :=
  { rows := db.rows.filter fun r => !(inMonth y m r.date), nextId := db.nextId }

/-- The sequential insert loop of `POST /api/import/confirm` (lines 697
to 714): records are created one by one; a throwing create aborts the
loop, leaving the earlier inserts in place.  Returns the resulting table,
the collected ids, and whether the loop aborted. -/
def insertLoop (db : Db) : List RecordData → Db × List Nat × Bool
  | [] => (db, [], false)
  | r :: rs =>
    match dbCreate db r with
    | Except.error _ => (db, [], true)
    | Except.ok (db1, id) =>
      let res := insertLoop db1 rs
      (res.1, id :: res.2.1, res.2.2)

/-- The `lastImportBackup` module variable (lines 45 to 50): target month,
the backed-up records of that month, and the ids inserted by the
import. -/
structure Backup where
  year : Int
  month : Int
  records : List DbRecord
  importedIds : List Nat
deriving DecidableEq

/-- The server state the import endpoints read and write: the
`DailyRecord` table and the single backup slot. -/
structure ServerState where
  db : Db
  lastImportBackup : Option Backup
deriving DecidableEq

/-- The responses of `POST /api/import/confirm`: the success body of lines
724 to 733, or the catch-all 500 of lines 734 to 740. -/
inductive ImportResponse where
  | success (recordsDeleted recordsImported skipped : Nat)
  | serverError
deriving DecidableEq

/-- Whether a confirm response is the success body. -/
def importOk : ImportResponse → Bool
  | ImportResponse.success _ _ _ => true
  | ImportResponse.serverError => false

/-- `POST /api/import/confirm` (lines 630 to 741): validate the rows, read
the existing records of the month, delete them, insert the valid rows
sequentially, and only on full success store the backup slot and answer
with the counts; a throw mid-loop reaches the catch block, which answers
500 without restoring anything. -/
def importConfirm (st : ServerState) (y m : Int) (rows : List ImportRow) :
    ImportResponse × ServerState :=
  let validData := (confirmValidRows y m rows).map rowToData
  let existingRecords := st.db.rows.filter fun r => inMonth y m r.date
  let res := insertLoop (deleteMonth st.db y m) validData
  let resp := if res.2.2 then ImportResponse.serverError
    else ImportResponse.success existingRecords.length res.2.1.length
      (rows.length - validData.length)
  let backup := if res.2.2 then st.lastImportBackup
    else some { year := y, month := m, records := existingRecords, importedIds := res.2.1 }
  (resp, { db := res.1, lastImportBackup := backup })

/-- The column values the undo loop passes to create (lines 759 to 771):
every column of the backed-up record except visitor and customers, which
are absent from the call and therefore take the schema default 0 (the
zod `recordSchema` declares the same defaults). -/
def restoreData (r : DbRecord) : RecordData :=
  { date := r.date
    totalSale := r.totalSale
    totalSaleGmv := r.totalSaleGmv
    gmvSaleLive := r.gmvSaleLive
    gmvAdsSpend := r.gmvAdsSpend
    gmvLiveAdsSpend := r.gmvLiveAdsSpend
    ttamSpendAds := r.ttamSpendAds
    ttamImpressions := r.ttamImpressions
    visitor := 0
    customers := 0 }

/-- The sequential restore loop of `POST /api/import/undo` (lines 758 to
772). -/
def restoreLoop (db : Db) : List DbRecord → Db × Bool
  | [] => (db, false)
  | r :: rs =>
    match dbCreate db (restoreData r) with
    | Except.error _ => (db, true)
    | Except.ok (db1, _) => restoreLoop db1 rs

/-- The responses of `POST /api/import/undo`: the success body, the 400
answered when no backup exists (lines 746 to 751), or the catch-all
500. -/
inductive UndoResponse where
  | success (recordsRestored recordsRemoved : Nat)
  | noBackupError
  | serverError
deriving DecidableEq

/-- Whether an undo response is the success body. -/
def undoOk : UndoResponse → Bool
  | UndoResponse.success _ _ => true
  | UndoResponse.noBackupError => false
  | UndoResponse.serverError => false

/-- `POST /api/import/undo` (lines 744 to 795): answer 400 when the backup
slot is empty; otherwise delete the imported ids, re-create the backed-up
records through `restoreData`, and on full success clear the backup slot
and answer with the counts. -/
def importUndo (st : ServerState) : UndoResponse × ServerState :=
  match st.lastImportBackup with
  | none => (UndoResponse.noBackupError, st)
  | some b =>
    let db1 : Db := { rows := st.db.rows.filter fun r => !(b.importedIds.contains r.id)
                      nextId := st.db.nextId }
    let res := restoreLoop db1 b.records
    if res.2 then (UndoResponse.serverError, { db := res.1, lastImportBackup := st.lastImportBackup })
    else (UndoResponse.success b.records.length b.importedIds.length,
          { db := res.1, lastImportBackup := none })

/-- A stored January 2026 record with nonzero visitor and customers,
used as concrete pre-import content. -/
def exRecJan5 : DbRecord :=
  { id := 0
    date := { year := 2026, month := 1, day := 5 }
    totalSale := 100
    totalSaleGmv := 80
    gmvSaleLive := 50
    gmvAdsSpend := 10
    gmvLiveAdsSpend := 6
    ttamSpendAds := 5
    ttamImpressions := 1000
    visitor := 7
    customers := 3 }

/-- A server state holding one January 2026 record and no backup. -/
def exState : ServerState :=
  { db := { rows := [exRecJan5], nextId := 1 }, lastImportBackup := none }

/-- A server state with an empty table and no backup. -/
def exEmptyState : ServerState :=
  { db := { rows := [], nextId := 0 }, lastImportBackup := none }

/-- A spreadsheet row for 10 January 2026 passing every check. -/
def exRowJan10 : ImportRow :=
  { dateCell := some { year := 2026, month := 1, day := 10 }
    totalSale := 20
    totalSaleGmv := 10
    gmvSaleLive := 5
    gmvLiveAdsSpend := 1
    gmvAdsSpend := 2
    ttamSpendAds := 1
    ttamImpressions := 10
    visitor := 4
    customers := 2 }

/-- A spreadsheet row for 5 January 2026 whose customers count exceeds its
visitor count but which passes the three monetary inequalities. -/
def exRowBadFunnel : ImportRow :=
  { dateCell := some { year := 2026, month := 1, day := 5 }
    totalSale := 20
    totalSaleGmv := 10
    gmvSaleLive := 5
    gmvLiveAdsSpend := 1
    gmvAdsSpend := 2
    ttamSpendAds := 1
    ttamImpressions := 10
    visitor := 2
    customers := 5 }

/-- Pointwise, the preview check is the confirm check strengthened by the
customers-at-most-visitor test. -/
lemma previewRowValid_eq_confirm (y m : Int) (r : ImportRow) :
    previewRowValid y m r
      = (confirmRowValid y m r && decide (r.customers ≤ r.visitor)) := by
  cases hd : r.dateCell with
  | none => simp [previewRowValid, confirmRowValid, hd]
  | some d =>
    simp only [previewRowValid, confirmRowValid, hd]
    split_ifs <;> simp_all [not_lt] <;> exfalso <;> linarith

/-- C5 counterexample: a row with more customers than visitors is
classified invalid by the preview yet inserted by the confirm, so the
preview validRows count 0 differs from the confirm recordsImported count
1. -/
theorem preview_confirm_validation_cex :
    (previewValidRows 2026 1 [exRowBadFunnel]).length = 0 ∧
    (confirmValidRows 2026 1 [exRowBadFunnel]).length = 1 ∧
    (importConfirm exEmptyState 2026 1 [exRowBadFunnel]).1 = ImportResponse.success 0 1 0 ∧
    (previewValidRows 2026 1 [exRowBadFunnel]).length ≠ 1 := by decide

/-- C5 amended: the preview and confirm checks agree on the date tests and
the three monetary inequalities, but the preview additionally rejects rows
whose customers exceed their visitors (and neither removes duplicate
dates, which the preview only reports as errors): the preview valid rows
are exactly the confirm-inserted rows that also pass the customers check,
so the preview count is at most the confirm count, with equality when no
such row occurs. -/
theorem previewValid_refines_confirmValid (y m : Int) (rows : List ImportRow) :
    previewValidRows y m rows
      = (confirmValidRows y m rows).filter (fun r => decide (r.customers ≤ r.visitor)) ∧
    (previewValidRows y m rows).length ≤ (confirmValidRows y m rows).length := by
  have heq : previewValidRows y m rows
      = (confirmValidRows y m rows).filter (fun r => decide (r.customers ≤ r.visitor)) := by
    unfold previewValidRows confirmValidRows
    rw [List.filter_filter]
    exact List.filter_congr fun a _ =>
      (previewRowValid_eq_confirm y m a).trans (Bool.and_comm _ _)
  exact ⟨heq, heq ▸ List.length_filter_le _ _⟩

/-- The records an uninterrupted insert loop appends: one per data row,
with consecutive autoincrement ids. -/
def mkRecords (startId : Nat) : List RecordData → List DbRecord
  | [] => []
  | r :: rs => dataToRecord startId r :: mkRecords (startId + 1) rs

/-- Whatever happens, the insert loop appends the records of some prefix
of its input, with consecutive ids, and consumes the whole input exactly
when it does not abort. -/
lemma insertLoop_progress (l : List RecordData) (db : Db) :
    ∃ l1 l2, l = l1 ++ l2 ∧
      (insertLoop db l).1
        = { rows := db.rows ++ mkRecords db.nextId l1, nextId := db.nextId + l1.length } ∧
      (insertLoop db l).2.1.length = l1.length ∧
      ((insertLoop db l).2.2 = false → l2 = []) := by
  induction l generalizing db with
  | nil =>
    refine ⟨[], [], rfl, ?_, rfl, fun _ => rfl⟩
    simp [insertLoop, mkRecords]
  | cons r rs ih =>
    cases hc : dbCreate db r with
    | error e =>
      refine ⟨[], r :: rs, rfl, ?_, ?_, ?_⟩
      · simp [insertLoop, hc, mkRecords]
      · simp [insertLoop, hc]
      · intro hfalse
        simp [insertLoop, hc] at hfalse
    | ok pr =>
      obtain ⟨prdb, prid⟩ := pr
      have hpr : Db.mk (db.rows ++ [dataToRecord db.nextId r]) (db.nextId + 1) = prdb ∧
          db.nextId = prid := by
        unfold dbCreate at hc
        split at hc
        · exact absurd hc (by simp)
        · injection hc with h
          injection h with h1 h2
          exact ⟨h1, h2⟩
      obtain ⟨hp1, hp2⟩ := hpr
      subst hp1
      subst hp2
      obtain ⟨l1, l2, hsplit, h1, h2, h3⟩ :=
        ih { rows := db.rows ++ [dataToRecord db.nextId r], nextId := db.nextId + 1 }
      refine ⟨r :: l1, l2, by rw [hsplit]; rfl, ?_, ?_, ?_⟩
      · simp only [insertLoop, hc]
        rw [h1]
        simp only [mkRecords, Db.mk.injEq, List.append_assoc, List.singleton_append]
        refine ⟨trivial, ?_⟩
        simp only [List.length_cons]
        omega
      · simp only [insertLoop, hc, List.length_cons, h2]
      · intro hok
        simp only [insertLoop, hc] at hok
        exact h3 hok

/-- When every incoming date is fresh for the table and the data rows have
pairwise distinct dates, the insert loop does not abort. -/
lemma insertLoop_ok (l : List RecordData) (db : Db)
    (hdis : ∀ r ∈ l, ∀ s ∈ db.rows, s.date ≠ r.date)
    (hnodup : l.Pairwise fun a b => a.date ≠ b.date) :
    (insertLoop db l).2.2 = false := by
  induction l generalizing db with
  | nil => rfl
  | cons r rs ih =>
    have hany : (db.rows.any fun s => s.date == r.date) = false := by
      rw [List.any_eq_false]
      intro s hs
      simpa using hdis r (by simp) s hs
    have hc : dbCreate db r = Except.ok
        ({ rows := db.rows ++ [dataToRecord db.nextId r], nextId := db.nextId + 1 },
         db.nextId) := by
      simp [dbCreate, hany]
    simp only [insertLoop, hc]
    apply ih
    · intro r2 hr2 s hs
      rcases List.mem_append.mp hs with hs1 | hs2
      · exact hdis r2 (List.mem_cons_of_mem _ hr2) s hs1
      · have hsr : s = dataToRecord db.nextId r := by simpa using hs2
        subst hsr
        exact (List.pairwise_cons.mp hnodup).1 r2 hr2
    · exact (List.pairwise_cons.mp hnodup).2

/-- Every row the confirm endpoint accepts carries a date inside the
target month. -/
lemma confirmValid_inMonth (y m : Int) (rows : List ImportRow) :
    ∀ r ∈ (confirmValidRows y m rows).map rowToData, inMonth y m r.date = true := by
  intro r hr
  obtain ⟨row, hrow, rfl⟩ := List.mem_map.mp hr
  have hv : confirmRowValid y m row = true := (List.mem_filter.mp hrow).2
  cases hd : row.dateCell with
  | none =>
    simp only [confirmRowValid, hd] at hv
    exact absurd hv (by decide)
  | some d =>
    simp only [confirmRowValid, hd] at hv
    split_ifs at hv with h1 h2
    push_neg at h1
    simp [rowToData, hd, inMonth, h1.1, h1.2]

/-- C2 amended: the confirm endpoint replaces the month sequentially, not
atomically.  The final table always consists of the untouched records of
other months followed by the records of some prefix of the valid rows, the
prefix being the whole file exactly when the endpoint answers success; and
whenever the valid rows have pairwise distinct dates the endpoint answers
success with the deleted, imported and skipped counts.  On a mid-loop
failure the endpoint answers 500 with the month records already deleted
and only that prefix inserted. -/
theorem importConfirm_sequential_replace (st : ServerState) (y m : Int)
    (rows : List ImportRow) :
    (∃ l1 l2,
      (confirmValidRows y m rows).map rowToData = l1 ++ l2 ∧
      (importConfirm st y m rows).2.db.rows
        = (st.db.rows.filter fun r => !(inMonth y m r.date)) ++ mkRecords st.db.nextId l1 ∧
      (importOk (importConfirm st y m rows).1 = true → l2 = [])) ∧
    (((confirmValidRows y m rows).map rowToData).Pairwise (fun a b => a.date ≠ b.date) →
      (importConfirm st y m rows).1
        = ImportResponse.success (st.db.rows.filter fun r => inMonth y m r.date).length
            ((confirmValidRows y m rows).map rowToData).length
            (rows.length - ((confirmValidRows y m rows).map rowToData).length)) := by
  obtain ⟨l1, l2, hsplit, h1, hlen, h3⟩ :=
    insertLoop_progress ((confirmValidRows y m rows).map rowToData) (deleteMonth st.db y m)
  have hdis : ∀ r ∈ (confirmValidRows y m rows).map rowToData,
      ∀ s ∈ (deleteMonth st.db y m).rows, s.date ≠ r.date := by
    intro r hr s hs hsr
    have hinr := confirmValid_inMonth y m rows r hr
    have hs2 : s ∈ st.db.rows.filter fun r => !(inMonth y m r.date) := hs
    have hsm := (List.mem_filter.mp hs2).2
    rw [hsr, hinr] at hsm
    exact absurd hsm (by simp)
  constructor
  · refine ⟨l1, l2, hsplit, ?_, ?_⟩
    · have hdb : (importConfirm st y m rows).2.db
          = (insertLoop (deleteMonth st.db y m)
              ((confirmValidRows y m rows).map rowToData)).1 := rfl
      rw [hdb, h1]
      simp [deleteMonth]
    · intro hok
      apply h3
      cases herr : (insertLoop (deleteMonth st.db y m)
          ((confirmValidRows y m rows).map rowToData)).2.2 with
      | false => rfl
      | true =>
        have hresp : (importConfirm st y m rows).1 = ImportResponse.serverError := by
          simp [importConfirm, herr]
        rw [hresp] at hok
        simp [importOk] at hok
  · intro hnodup
    have herr := insertLoop_ok _ _ hdis hnodup
    have hl2 : l2 = [] := h3 herr
    have hl1 : l1 = (confirmValidRows y m rows).map rowToData := by
      rw [hsplit, hl2, List.append_nil]
    have hresp : (importConfirm st y m rows).1
        = ImportResponse.success (st.db.rows.filter fun r => inMonth y m r.date).length
            (insertLoop (deleteMonth st.db y m)
              ((confirmValidRows y m rows).map rowToData)).2.1.length
            (rows.length - ((confirmValidRows y m rows).map rowToData).length) := by
      simp [importConfirm, herr]
    rw [hresp, hlen, hl1]

/-- C2 witness: importing one valid row over the one-record January state
succeeds with one record deleted, one imported and none skipped. -/
theorem importConfirm_sequential_replace_witness :
    (importConfirm exState 2026 1 [exRowJan10]).1
      = ImportResponse.success (exState.db.rows.filter fun r => inMonth 2026 1 r.date).length
          ((confirmValidRows 2026 1 [exRowJan10]).map rowToData).length
          ([exRowJan10].length - ((confirmValidRows 2026 1 [exRowJan10]).map rowToData).length) :=
  (importConfirm_sequential_replace exState 2026 1 [exRowJan10]).2 (by decide)

/-- C2 counterexample: a file with two rows carrying the same date makes
the second insert violate the unique date index mid-loop, so the endpoint
answers 500 while the stored January records have changed (the prior
record is gone and one file row is in). -/
theorem importConfirm_not_transactional_cex :
    (importConfirm exState 2026 1 [exRowJan10, exRowJan10]).1 = ImportResponse.serverError ∧
    ((importConfirm exState 2026 1 [exRowJan10, exRowJan10]).2.db.rows.filter
        fun r => inMonth 2026 1 r.date)
      ≠ (exState.db.rows.filter fun r => inMonth 2026 1 r.date) := by decide

/-- C1: importing one valid January row over the January state and undoing
restores the backed-up record except that its visitor and customers
columns come back as 0 instead of the backed-up 7 and 3: the undo create
call omits those two columns. -/
theorem importUndo_drops_visitor_customers_bug :
    ((importUndo (importConfirm exState 2026 1 [exRowJan10]).2).2.db.rows.map
        fun r => (r.date, r.visitor, r.customers))
      = [({ year := 2026, month := 1, day := 5 }, 0, 0)] ∧
    (exRecJan5.visitor, exRecJan5.customers) = (7, 3) ∧
    ((importUndo (importConfirm exState 2026 1 [exRowJan10]).2).2.db.rows.map
        fun r => (r.date, r.totalSale, r.ttamSpendAds))
      = [(exRecJan5.date, exRecJan5.totalSale, exRecJan5.ttamSpendAds)] ∧
    undoOk (importUndo (importConfirm exState 2026 1 [exRowJan10]).2).1 = true := by decide

/-- C8: the backup slot holds exactly one snapshot and undo applies only
to the most recent import: with no backup, undo answers the 400 error and
leaves the state untouched; a successful import overwrites the slot with
the snapshot of the month it replaced; and a successful undo clears the
slot, so an immediately following undo answers the same 400 error. -/
theorem importBackup_lifecycle (st : ServerState) (y m : Int) (rows : List ImportRow) :
    (st.lastImportBackup = none → importUndo st = (UndoResponse.noBackupError, st)) ∧
    (importOk (importConfirm st y m rows).1 = true →
      (importConfirm st y m rows).2.lastImportBackup
        = some { year := y, month := m,
                 records := st.db.rows.filter fun r => inMonth y m r.date,
                 importedIds :=
                   (insertLoop (deleteMonth st.db y m)
                     ((confirmValidRows y m rows).map rowToData)).2.1 }) ∧
    (undoOk (importUndo st).1 = true →
      (importUndo st).2.lastImportBackup = none ∧
      importUndo (importUndo st).2 = (UndoResponse.noBackupError, (importUndo st).2)) := by
  refine ⟨?_, ?_, ?_⟩
  · intro h
    simp [importUndo, h]
  · intro hok
    cases herr : (insertLoop (deleteMonth st.db y m)
        ((confirmValidRows y m rows).map rowToData)).2.2 with
    | true =>
      have hresp : (importConfirm st y m rows).1 = ImportResponse.serverError := by
        simp [importConfirm, herr]
      rw [hresp] at hok
      simp [importOk] at hok
    | false =>
      simp [importConfirm, herr]
  · intro hok
    cases hb : st.lastImportBackup with
    | none =>
      have h1 : importUndo st = (UndoResponse.noBackupError, st) := by
        simp [importUndo, hb]
      rw [h1] at hok
      simp [undoOk] at hok
    | some b =>
      cases herr : (restoreLoop
          { rows := st.db.rows.filter fun r => !(b.importedIds.contains r.id)
            nextId := st.db.nextId } b.records).2 with
      | true =>
        have h1 : (importUndo st).1 = UndoResponse.serverError := by
          simp only [importUndo, hb]
          rw [herr]
          simp
        rw [h1] at hok
        simp [undoOk] at hok
      | false =>
        have hstate : (importUndo st).2
            = { db := (restoreLoop
                  { rows := st.db.rows.filter fun r => !(b.importedIds.contains r.id)
                    nextId := st.db.nextId } b.records).1,
                lastImportBackup := none } := by
          simp only [importUndo, hb]
          rw [herr]
          simp
        refine ⟨by rw [hstate], ?_⟩
        rw [hstate]
        simp [importUndo]

/-- C8 witness: the three lifecycle facts at concrete states: undo on the
empty state errors and changes nothing, the January import fills the slot
with the January snapshot, and undoing that import clears the slot so a
second undo errors. -/
theorem importBackup_lifecycle_witness :
    importUndo exEmptyState = (UndoResponse.noBackupError, exEmptyState) ∧
    (importConfirm exState 2026 1 [exRowJan10]).2.lastImportBackup
      = some { year := 2026, month := 1,
               records := exState.db.rows.filter fun r => inMonth 2026 1 r.date,
               importedIds :=
                 (insertLoop (deleteMonth exState.db 2026 1)
                   ((confirmValidRows 2026 1 [exRowJan10]).map rowToData)).2.1 } ∧
    ((importUndo (importConfirm exState 2026 1 [exRowJan10]).2).2.lastImportBackup = none ∧
      importUndo (importUndo (importConfirm exState 2026 1 [exRowJan10]).2).2
        = (UndoResponse.noBackupError,
           (importUndo (importConfirm exState 2026 1 [exRowJan10]).2).2)) :=
  ⟨(importBackup_lifecycle exEmptyState 2026 1 []).1 rfl,
   (importBackup_lifecycle exState 2026 1 [exRowJan10]).2.1 (by decide),
   (importBackup_lifecycle (importConfirm exState 2026 1 [exRowJan10]).2 2026 1 []).2.2
     (by decide)⟩

/-- The validated payload of `POST /api/records` after the zod
`recordSchema` (lines 80 to 100): a submitted date as an epoch timestamp
in milliseconds and the nine numeric fields. -/
structure EntryInput where
  date : Int
  totalSale : Rat
  totalSaleGmv : Rat
  gmvSaleLive : Rat
  gmvAdsSpend : Rat
  gmvLiveAdsSpend : Rat
  ttamSpendAds : Rat
  ttamImpressions : Rat
  visitor : Rat
  customers : Rat
deriving DecidableEq

/-- A stored record of the data-entry subsystem, with its date kept as an
epoch timestamp in milliseconds. -/
structure EntryRecord where
  id : Nat
  date : Int
  totalSale : Rat
  totalSaleGmv : Rat
  gmvSaleLive : Rat
  gmvAdsSpend : Rat
  gmvLiveAdsSpend : Rat
  ttamSpendAds : Rat
  ttamImpressions : Rat
  visitor : Rat
  customers : Rat
deriving DecidableEq

/-- The `DailyRecord` table as the data-entry endpoint sees it. -/
structure EntryDb where
  rows : List EntryRecord
  nextId : Nat
deriving DecidableEq

/-- `date.setUTCHours(0, 0, 0, 0)` (line 240): the timestamp floored to
midnight UTC of its own UTC day. -/
def normalizeUtc (t : Int) : Int := 86400000 * (t / 86400000)

/-- The two save modes the endpoint reports (line 253). -/
inductive SaveMode where
  | create
  | update
deriving DecidableEq

/-- `POST /api/records` (lines 234 to 296): normalize the submitted date
to midnight UTC, look for an existing record inside that 24-hour window
with `findFirst`, and either update that record in place (keeping its id
and date) or create a new record dated at the normalized midnight. -/
def postRecords (db : EntryDb) (input : EntryInput) : SaveMode × EntryDb :=
  let date := normalizeUtc input.date
  match db.rows.find? fun r =>
      decide (date ≤ r.date) && decide (r.date < date + 86400000) with
  | some e =>
    (SaveMode.update,
     { rows := db.rows.map fun r =>
         if r.id = e.id then
           { r with
             totalSale := input.totalSale
             totalSaleGmv := input.totalSaleGmv
             gmvSaleLive := input.gmvSaleLive
             gmvAdsSpend := input.gmvAdsSpend
             gmvLiveAdsSpend := input.gmvLiveAdsSpend
             ttamSpendAds := input.ttamSpendAds
             ttamImpressions := input.ttamImpressions
             visitor := input.visitor
             customers := input.customers }
         else r
       nextId := db.nextId })
  | none =>
    (SaveMode.create,
     { rows := db.rows ++
         [{ id := db.nextId
            date := date
            totalSale := input.totalSale
            totalSaleGmv := input.totalSaleGmv
            gmvSaleLive := input.gmvSaleLive
            gmvAdsSpend := input.gmvAdsSpend
            gmvLiveAdsSpend := input.gmvLiveAdsSpend
            ttamSpendAds := input.ttamSpendAds
            ttamImpressions := input.ttamImpressions
            visitor := input.visitor
            customers := input.customers }]
       nextId := db.nextId + 1 })

/-- At most one stored record per UTC calendar day. -/
def oneRecordPerDay (db : EntryDb) : Prop :=
  db.rows.Pairwise fun a b => dayOfMs a.date ≠ dayOfMs b.date

/-- A timestamp lies in the 24-hour window starting at the midnight of a
reference timestamp exactly when the two share a UTC calendar day. -/
lemma mem_window_iff (t u : Int) :
    (normalizeUtc u ≤ t ∧ t < normalizeUtc u + 86400000) ↔ dayOfMs t = dayOfMs u := by
  unfold normalizeUtc dayOfMs
  have h1 := Int.ediv_add_emod t 86400000
  have h2 := Int.emod_nonneg t (by norm_num : (86400000 : Int) ≠ 0)
  have h3 := Int.emod_lt_of_pos t (by norm_num : (0 : Int) < 86400000)
  have h4 := Int.ediv_add_emod u 86400000
  have h5 := Int.emod_nonneg u (by norm_num : (86400000 : Int) ≠ 0)
  have h6 := Int.emod_lt_of_pos u (by norm_num : (0 : Int) < 86400000)
  omega

/-- Flooring to midnight does not change the calendar day. -/
lemma dayOfMs_normalizeUtc (t : Int) : dayOfMs (normalizeUtc t) = dayOfMs t := by
  unfold normalizeUtc dayOfMs
  exact Int.mul_ediv_cancel_left _ (by norm_num)

/-- C10: the save endpoint preserves the one-record-per-UTC-day invariant:
the submitted date is floored to midnight UTC, mode update is reported
exactly when a record of that day already exists, an update rewrites that
record in place (same row count, same ids and dates), and a create
appends a single record dated at the normalized midnight. -/
theorem postRecords_upsert (db : EntryDb) (input : EntryInput)
    (h : oneRecordPerDay db) :
    oneRecordPerDay (postRecords db input).2 ∧
    ((postRecords db input).1 = SaveMode.update ↔
      ∃ r ∈ db.rows, dayOfMs r.date = dayOfMs input.date) ∧
    ((postRecords db input).1 = SaveMode.update →
      (postRecords db input).2.rows.length = db.rows.length ∧
      ((postRecords db input).2.rows.map fun r => (r.id, r.date))
        = db.rows.map fun r => (r.id, r.date)) ∧
    ((postRecords db input).1 = SaveMode.create →
      ((postRecords db input).2.rows.map fun r => r.date)
        = (db.rows.map fun r => r.date) ++ [normalizeUtc input.date]) := by
  cases hfind : db.rows.find? fun r =>
      decide (normalizeUtc input.date ≤ r.date) &&
      decide (r.date < normalizeUtc input.date + 86400000) with
  | some e =>
    have hstate : postRecords db input
        = (SaveMode.update,
           { rows := db.rows.map fun r =>
               if r.id = e.id then
                 { r with
                   totalSale := input.totalSale
                   totalSaleGmv := input.totalSaleGmv
                   gmvSaleLive := input.gmvSaleLive
                   gmvAdsSpend := input.gmvAdsSpend
                   gmvLiveAdsSpend := input.gmvLiveAdsSpend
                   ttamSpendAds := input.ttamSpendAds
                   ttamImpressions := input.ttamImpressions
                   visitor := input.visitor
                   customers := input.customers }
               else r
             nextId := db.nextId }) := by
      simp only [postRecords, hfind]
    have hdate : ∀ r : EntryRecord,
        (if r.id = e.id then
           { r with
             totalSale := input.totalSale
             totalSaleGmv := input.totalSaleGmv
             gmvSaleLive := input.gmvSaleLive
             gmvAdsSpend := input.gmvAdsSpend
             gmvLiveAdsSpend := input.gmvLiveAdsSpend
             ttamSpendAds := input.ttamSpendAds
             ttamImpressions := input.ttamImpressions
             visitor := input.visitor
             customers := input.customers }
         else r).date = r.date := by
      intro r
      by_cases hid : r.id = e.id <;> simp [hid]
    have hid2 : ∀ r : EntryRecord,
        (if r.id = e.id then
           { r with
             totalSale := input.totalSale
             totalSaleGmv := input.totalSaleGmv
             gmvSaleLive := input.gmvSaleLive
             gmvAdsSpend := input.gmvAdsSpend
             gmvLiveAdsSpend := input.gmvLiveAdsSpend
             ttamSpendAds := input.ttamSpendAds
             ttamImpressions := input.ttamImpressions
             visitor := input.visitor
             customers := input.customers }
         else r).id = r.id := by
      intro r
      by_cases hid : r.id = e.id <;> simp [hid]
    refine ⟨?_, ?_, ?_, ?_⟩
    · rw [hstate]
      unfold oneRecordPerDay
      simp only [List.pairwise_map]
      exact h.imp fun hab => by rw [hdate, hdate]; exact hab
    · rw [hstate]
      simp only [true_iff]
      refine ⟨e, List.mem_of_find?_eq_some hfind, ?_⟩
      have hp := List.find?_some hfind
      simp only [Bool.and_eq_true, decide_eq_true_eq] at hp
      exact (mem_window_iff e.date input.date).mp hp
    · intro _
      rw [hstate]
      constructor
      · simp
      · simp only [List.map_map]
        refine List.map_congr_left ?_
        intro a _
        simp only [Function.comp_apply]
        rw [hid2 a, hdate a]
    · intro hcreate
      rw [hstate] at hcreate
      simp at hcreate
  | none =>
    have hstate : postRecords db input
        = (SaveMode.create,
           { rows := db.rows ++
               [{ id := db.nextId
                  date := normalizeUtc input.date
                  totalSale := input.totalSale
                  totalSaleGmv := input.totalSaleGmv
                  gmvSaleLive := input.gmvSaleLive
                  gmvAdsSpend := input.gmvAdsSpend
                  gmvLiveAdsSpend := input.gmvLiveAdsSpend
                  ttamSpendAds := input.ttamSpendAds
                  ttamImpressions := input.ttamImpressions
                  visitor := input.visitor
                  customers := input.customers }]
             nextId := db.nextId + 1 }) := by
      simp only [postRecords, hfind]
    have hnone : ∀ r ∈ db.rows, dayOfMs r.date ≠ dayOfMs input.date := by
      intro r hr hday
      have hp := List.find?_eq_none.mp hfind r hr
      simp only [Bool.and_eq_true, decide_eq_true_eq, not_and] at hp
      have hw := (mem_window_iff r.date input.date).mpr hday
      exact hp hw.1 hw.2
    refine ⟨?_, ?_, ?_, ?_⟩
    · rw [hstate]
      unfold oneRecordPerDay
      rw [List.pairwise_append]
      refine ⟨h, List.pairwise_singleton _ _, ?_⟩
      intro a ha b hb
      have hb2 : b.date = normalizeUtc input.date := by
        have : b = _ := List.mem_singleton.mp hb
        rw [this]
      rw [hb2, dayOfMs_normalizeUtc]
      exact hnone a ha
    · rw [hstate]
      constructor
      · intro habs
        simp at habs
      · rintro ⟨r, hr, hday⟩
        exact absurd hday (hnone r hr)
    · intro hupd
      rw [hstate] at hupd
      simp at hupd
    · intro _
      rw [hstate]
      simp

/-- A concrete validated payload for the witness. -/
def exEntryInput : EntryInput :=
  { date := 100
    totalSale := 0
    totalSaleGmv := 0
    gmvSaleLive := 0
    gmvAdsSpend := 0
    gmvLiveAdsSpend := 0
    ttamSpendAds := 0
    ttamImpressions := 0
    visitor := 0
    customers := 0 }

/-- C10 witness: saving into the empty table preserves the invariant and
reports mode create. -/
theorem postRecords_upsert_witness :
    oneRecordPerDay (postRecords { rows := [], nextId := 0 } exEntryInput).2 ∧
    (postRecords { rows := [], nextId := 0 } exEntryInput).1 = SaveMode.create :=
  ⟨(postRecords_upsert { rows := [], nextId := 0 } exEntryInput List.Pairwise.nil).1,
   by decide⟩

end Crm01
